import Mathlib

/-!
Shallow embedding of the gRPC-Web JSON transcoding layer of the
`go-grpc-http1` repository: the request frame encoder (`NewJsonReader`
in `internal/grpcweb/json_reader.go`) and the response transcoder
(`jsonWriter` with `NewJsonWriter`, `Header`, `Flush`,
`prepareHeadersIfNecessary`, `WriteHeader`, `Write`, `Finalize` and
`fromGrpcToStatus`).  Bytes are modelled as `Nat`, Go `int` as `Int`,
and a Go `http.Header` (a map from key strings to string slices) as a
total function from keys to value lists, `[]` meaning the key is
absent.
-/

namespace GoGrpcHttp1

/-- Big-endian 4-byte encoding of a 32-bit value, as written by
`binary.BigEndian.PutUint32` into bytes 1..4 of the new buffer. -/
def putUint32BE (n : Nat) : List Nat :=
  [n / 16777216 % 256, n / 65536 % 256, n / 256 % 256, n % 256]

/-- Big-endian decoding of four bytes to an unsigned 32-bit value. -/
def beUint32 (b0 b1 b2 b3 : Nat) : Nat :=
  ((b0 * 256 + b1) * 256 + b2) * 256 + b3

/-- The buffer built by `NewJsonReader` from the fully read request body
`content`: `newBody := make([]byte, len(content)+5)` (all zero, so byte 0,
the flag, stays `0x00`), then `binary.BigEndian.PutUint32(newBody[1:],
uint32(len(content)))` — the Go conversion `uint32(...)` truncates the
length modulo `2^32` — and `copy(newBody[5:], content)`. -/
def newJsonReaderFrame (content : List Nat) : List Nat :=
  0 :: (putUint32BE (content.length % 4294967296) ++ content)

/-- Control flow of `NewJsonReader`: `content, err := ioutil.ReadAll(body)`
is the argument (either the bytes read or a read error); on error the
function returns `nil, err` at once — the `defer body.Close()` on the next
line has not yet been registered, so the input stream is not closed — and
on success it registers the deferred close and returns a reader over the
framed buffer.  The second component records whether `body.Close()` was
called. -/
def NewJsonReader (readAll : Except String (List Nat)) :
    Except String (List Nat) × Bool :=
  match readAll with
  | Except.error e => (Except.error e, false)
  | Except.ok content => (Except.ok (newJsonReaderFrame content), true)

/-- Go `http.Header`: a map from header keys to lists of values, `[]`
standing for an absent key. -/
def HeaderMap : Type := String → List String

/-- Header `Get`: first value of the list, or `""` when absent. -/
def headerGet (h : HeaderMap) (k : String) : String := (h k).headD ""

/-- Header `Set`: replaces the values of key `k` by the single value `v`. -/
def headerSet (h : HeaderMap) (k v : String) : HeaderMap :=
  fun q => if q = k then [v] else h q

/-- Header `Del`: removes key `k`. -/
def headerDel (h : HeaderMap) (k : String) : HeaderMap :=
  fun q => if q = k then [] else h q

/-- The underlying `http.ResponseWriter` the transcoder wraps: its header
map, the status code it was sent via its own `WriteHeader` (if any), and
the bytes written to it via its own `Write`. -/
structure Sink where
  header : HeaderMap
  status : Option Int
  written : List Nat

/-- The `jsonWriter` state: the wrapped sink `w.w`, the recorded
`statusCode` (Go zero value `0` until `WriteHeader` is called), the
in-memory `body` buffer, and `announcedTrailers` (`none` modelling the Go
`nil` slice meaning headers were not prepared yet). -/
structure JsonWriter where
  sink : Sink
  statusCode : Int
  body : List Nat
  announcedTrailers : Option (List String)

/-- `NewJsonWriter`: wraps a response writer with an empty body buffer,
zero status code and `nil` announced trailers. -/
def newJsonWriter (s : Sink) : JsonWriter :=
  { sink := s, statusCode := 0, body := [], announcedTrailers := none }

/-- `prepareHeadersIfNecessary`: if `announcedTrailers` is non-`nil`,
return unchanged; otherwise clone the sink's `Trailer` values into
`announcedTrailers`, delete the `Trailer` key, and set `Content-Type` to
`application/json`.  Modelled from the spec: `sliceutils.StringClone` is
not under `src/`; per the comment on the `announcedTrailers` field it
returns a non-`nil` slice even for a `nil` input, which `some tr` models. -/
def prepareHeadersIfNecessary (w : JsonWriter) : JsonWriter :=
  match w.announcedTrailers with
  | some _ => w
  | none =>
      let tr := w.sink.header "Trailer"
      { w with
        announcedTrailers := some tr,
        sink := { w.sink with
          header := headerSet (headerDel w.sink.header "Trailer")
            "Content-Type" "application/json" } }

/-- `WriteHeader`: prepare headers if necessary, then record the status
code (it is not forwarded to the sink until `Finalize`). -/
def WriteHeader (w : JsonWriter) (c : Int) : JsonWriter :=
  let w' := prepareHeadersIfNecessary w
  { w' with statusCode := c }

/-- `Write`: prepare headers if necessary, then append the chunk to the
in-memory buffer.  `bytes.Buffer.Write` always returns `len(buf), nil`,
modelled by the pair `(buf.length, none)`. -/
def Write (w : JsonWriter) (buf : List Nat) :
    JsonWriter × Nat × Option String :=
  let w' := prepareHeadersIfNecessary w
  ({ w' with body := w'.body ++ buf }, buf.length, none)

/-- `Flush` has an empty body: it does nothing. -/
def Flush (w : JsonWriter) : JsonWriter := w

/-- String of decimal digits accepted by `strconv.ParseUint(s, 10, 32)`:
non-empty, ASCII digits only, value below `2^32`. -/
def parseUint32 (s : String) : Option Nat :=
  if s.data ≠ [] ∧ s.data.all Char.isDigit then
    let n := s.data.foldl (fun acc ch => acc * 10 + (ch.toNat - 48)) 0
    if n < 4294967296 then some n else none
  else none

/-- Quoted code names accepted by `codes.Code.UnmarshalJSON` of
`google.golang.org/grpc/codes` (an external dependency), mapped to their
numeric values. -/
def codeFromName (s : String) : Option Nat :=
  if s = "\"OK\"" then some 0
  else if s = "\"CANCELLED\"" then some 1
  else if s = "\"UNKNOWN\"" then some 2
  else if s = "\"INVALID_ARGUMENT\"" then some 3
  else if s = "\"DEADLINE_EXCEEDED\"" then some 4
  else if s = "\"NOT_FOUND\"" then some 5
  else if s = "\"ALREADY_EXISTS\"" then some 6
  else if s = "\"PERMISSION_DENIED\"" then some 7
  else if s = "\"RESOURCE_EXHAUSTED\"" then some 8
  else if s = "\"FAILED_PRECONDITION\"" then some 9
  else if s = "\"ABORTED\"" then some 10
  else if s = "\"OUT_OF_RANGE\"" then some 11
  else if s = "\"UNIMPLEMENTED\"" then some 12
  else if s = "\"INTERNAL\"" then some 13
  else if s = "\"UNAVAILABLE\"" then some 14
  else if s = "\"DATA_LOSS\"" then some 15
  else if s = "\"UNAUTHENTICATED\"" then some 16
  else none

/-- `codes.Code.UnmarshalJSON` on a fresh zero code (external dependency
`google.golang.org/grpc/codes`): the literal `null` is a no-op; a decimal
number below `_maxCode = 17` sets the code; otherwise a quoted code name
sets the code; in every other case an error is returned and the code keeps
its zero value.  The first component is the resulting code value, the
second records whether unmarshalling succeeded (the caller in `Finalize`
ignores it). -/
def unmarshalCode (s : String) : Nat × Bool :=
  if s = "null" then (0, true)
  else
    match parseUint32 s with
    | some ci => if ci < 17 then (ci, true) else (0, false)
    | none =>
        match codeFromName s with
        | some c => (c, true)
        | none => (0, false)

/-- The `switch` of `fromGrpcToStatus`, over the numeric values of the
protocol codes (OK = 0, Unknown = 2, InvalidArgument = 3,
DeadlineExceeded = 4, NotFound = 5, PermissionDenied = 7,
ResourceExhausted = 8, FailedPrecondition = 9, Aborted = 10,
Unimplemented = 12, Unavailable = 14, Unauthenticated = 16). -/
def fromGrpcToStatus (code : Nat) : Int :=
  if code = 0 then 200
  else if code = 3 then 400
  else if code = 5 then 404
  else if code = 7 then 403
  else if code = 16 then 401
  else if code = 8 then 429
  else if code = 12 then 501
  else if code = 10 then 444
  else if code = 4 then 504
  else if code = 14 then 503
  else if code = 9 then 428
  else if code = 2 then 500
  else 500

/-- The body emitted by `Finalize`: the buffered bytes with the first 5
stripped when at least 5 are buffered, unchanged otherwise. -/
def emittedBody (body : List Nat) : List Nat :=
  if 5 ≤ body.length then body.drop 5 else body

/-- `Finalize`: prepare headers if necessary; strip the frame header from
the buffered body; set `Content-Length` to the decimal length of the
resulting body; send the recorded status code if non-zero, otherwise the
`fromGrpcToStatus` image of the code unmarshalled from the `Grpc-Status`
header; then write the body to the sink (and flush, which the pure sink
model absorbs). -/
def Finalize (w : JsonWriter) : JsonWriter :=
  let w' := prepareHeadersIfNecessary w
  let body := emittedBody w'.body
  let h1 := headerSet w'.sink.header "Content-Length" (Nat.repr body.length)
  let status : Int :=
    if w'.statusCode ≠ 0 then w'.statusCode
    else fromGrpcToStatus (unmarshalCode (headerGet h1 "Grpc-Status")).1
  { w' with sink := { header := h1, status := some status,
                      written := w'.sink.written ++ body } }

/-- Calls the handler may make on the transcoder before `Finalize`:
`Write`, `WriteHeader`, `Flush`, and direct mutation of the sink's header
map through the pass-through `Header()` (`Header().Set`). -/
inductive Op where
  | write (buf : List Nat)
  | writeHeader (c : Int)
  | flush
  | setHeader (k v : String)

/-- Applies one call to the transcoder state. -/
def applyOp (w : JsonWriter) : Op → JsonWriter
  | Op.write buf => (Write w buf).1
  | Op.writeHeader c => WriteHeader w c
  | Op.flush => Flush w
  | Op.setHeader k v =>
      { w with sink := { w.sink with header := headerSet w.sink.header k v } }

/-- Runs a sequence of calls on the transcoder state. -/
def run (w : JsonWriter) (ops : List Op) : JsonWriter := ops.foldl applyOp w

/-- The call sequence contains no `WriteHeader` call. -/
def noWriteHeader (ops : List Op) : Prop :=
  ∀ op ∈ ops, ∀ c, op ≠ Op.writeHeader c

/-- Big-endian decoding of the first four bytes of a byte list. -/
def beUint32List (l : List Nat) : Nat :=
  match l with
  | b0 :: b1 :: b2 :: b3 :: _ => ((b0 * 256 + b1) * 256 + b2) * 256 + b3
  | _ => 0

/-! Helper lemmas about `prepareHeadersIfNecessary` and `run`. -/

@[simp]
theorem prepare_body (w : JsonWriter) :
    (prepareHeadersIfNecessary w).body = w.body := by
  cases h : w.announcedTrailers <;> simp [prepareHeadersIfNecessary, h]

@[simp]
theorem prepare_statusCode (w : JsonWriter) :
    (prepareHeadersIfNecessary w).statusCode = w.statusCode := by
  cases h : w.announcedTrailers <;> simp [prepareHeadersIfNecessary, h]

@[simp]
theorem prepare_written (w : JsonWriter) :
    (prepareHeadersIfNecessary w).sink.written = w.sink.written := by
  cases h : w.announcedTrailers <;> simp [prepareHeadersIfNecessary, h]

@[simp]
theorem prepare_status (w : JsonWriter) :
    (prepareHeadersIfNecessary w).sink.status = w.sink.status := by
  cases h : w.announcedTrailers <;> simp [prepareHeadersIfNecessary, h]

theorem prepare_header_ne (w : JsonWriter) (k : String)
    (h1 : k ≠ "Trailer") (h2 : k ≠ "Content-Type") :
    (prepareHeadersIfNecessary w).sink.header k = w.sink.header k := by
  cases h : w.announcedTrailers <;>
    simp [prepareHeadersIfNecessary, h, headerSet, headerDel, h1, h2]

theorem applyOp_statusCode (w : JsonWriter) (op : Op)
    (h : ∀ c, op ≠ Op.writeHeader c) :
    (applyOp w op).statusCode = w.statusCode := by
  cases op with
  | write buf => simp [applyOp, Write]
  | writeHeader c => exact absurd rfl (h c)
  | flush => rfl
  | setHeader k v => rfl

theorem run_statusCode (ops : List Op) (w : JsonWriter) (h : noWriteHeader ops) :
    (run w ops).statusCode = w.statusCode := by
  induction ops generalizing w with
  | nil => rfl
  | cons op rest ih =>
      have hop : ∀ c, op ≠ Op.writeHeader c := fun c => h op (by simp) c
      have hrest : noWriteHeader rest := fun o ho c => h o (by simp [ho]) c
      calc (run w (op :: rest)).statusCode
          = (run (applyOp w op) rest).statusCode := by simp [run]
        _ = (applyOp w op).statusCode := ih (applyOp w op) hrest
        _ = w.statusCode := applyOp_statusCode w op hop

theorem Finalize_written (w : JsonWriter) :
    (Finalize w).sink.written = w.sink.written ++ emittedBody w.body := by
  simp [Finalize]

theorem Finalize_status_of_zero (w : JsonWriter) (h : w.statusCode = 0) :
    (Finalize w).sink.status =
      some (fromGrpcToStatus
        (unmarshalCode (headerGet w.sink.header "Grpc-Status")).1) := by
  have hgs : headerGet
      (headerSet (prepareHeadersIfNecessary w).sink.header "Content-Length"
        (Nat.repr (emittedBody w.body).length))
      "Grpc-Status" = headerGet w.sink.header "Grpc-Status" := by
    simp [headerGet, headerSet,
      prepare_header_ne w "Grpc-Status" (by decide) (by decide)]
  simp [Finalize, h, hgs]

theorem Finalize_status_of_ne (w : JsonWriter) (h : w.statusCode ≠ 0) :
    (Finalize w).sink.status = some w.statusCode := by
  simp [Finalize, h]

theorem unmarshalCode_fail_zero (s : String) (h : (unmarshalCode s).2 = false) :
    (unmarshalCode s).1 = 0 := by
  unfold unmarshalCode at *
  by_cases hn : s = "null"
  · simp [hn] at h
  · rw [if_neg hn] at h ⊢
    cases hp : parseUint32 s with
    | some ci =>
        rw [hp] at h
        by_cases hlt : ci < 17
        · simp [hlt] at h
        · simp [hlt]
    | none =>
        rw [hp] at h
        cases hc : codeFromName s with
        | some c =>
            rw [hc] at h
            simp at h
        | none => simp [hc]

/-! Claim theorems. -/

/-- C1, amended: for every byte sequence `B`, `NewJsonReader` produces an
output buffer of length `len(B) + 5` whose byte 0 is the flag `0x00`,
whose bytes 1..4 decode as a big-endian unsigned 32-bit integer to
`len(B)` provided `len(B) < 2^32` (the Go conversion `uint32(len(content))`
truncates the length modulo `2^32`), and whose bytes 5.. equal `B`. -/
theorem C1_encode_frame (B : List Nat) (h : B.length < 4294967296) :
    (newJsonReaderFrame B).length = B.length + 5 ∧
    (newJsonReaderFrame B).headD 0 = 0 ∧
    beUint32List ((newJsonReaderFrame B).drop 1) = B.length ∧
    (newJsonReaderFrame B).drop 5 = B := by
  have hfr : newJsonReaderFrame B =
      0 :: (B.length / 16777216 % 256) :: (B.length / 65536 % 256) ::
        (B.length / 256 % 256) :: (B.length % 256) :: B := by
    simp [newJsonReaderFrame, putUint32BE, Nat.mod_eq_of_lt h]
  rw [hfr]
  refine ⟨?_, rfl, ?_, rfl⟩
  · simp [List.length_cons]
    try omega
  · simp [beUint32List]
    try omega

/-- C1, counterexample to the unrestricted claim: for the input of length
`2^32`, the length field wraps around to `0`, so bytes 1..4 do not decode
to the input length. -/
theorem C1_counterexample :
    beUint32List ((newJsonReaderFrame (List.replicate 4294967296 0)).drop 1) ≠
      (List.replicate 4294967296 (0 : Nat)).length := by
  unfold newJsonReaderFrame
  rw [List.length_replicate]
  norm_num [putUint32BE, beUint32List]

/-- C1, witness: the amended claim evaluated at the payload `[7, 8, 9]`. -/
theorem C1_encode_frame_witness :
    ([7, 8, 9] : List Nat).length < 4294967296 ∧
    ((newJsonReaderFrame [7, 8, 9]).length = ([7, 8, 9] : List Nat).length + 5 ∧
     (newJsonReaderFrame [7, 8, 9]).headD 0 = 0 ∧
     beUint32List ((newJsonReaderFrame [7, 8, 9]).drop 1) =
       ([7, 8, 9] : List Nat).length ∧
     (newJsonReaderFrame [7, 8, 9]).drop 5 = [7, 8, 9]) :=
  ⟨by decide, C1_encode_frame [7, 8, 9] (by decide)⟩

/-- C2: `Finalize` appends to the sink exactly the buffered body with its
first five bytes stripped when at least five bytes are buffered, and the
buffered body unchanged otherwise. -/
theorem C2_finalize_strips_frame_header (w : JsonWriter) :
    (Finalize w).sink.written =
      w.sink.written ++
        (if 5 ≤ w.body.length then w.body.drop 5 else w.body) := by
  simp [Finalize, emittedBody]

/-- C6: the `Content-Length` header set by `Finalize` on the underlying
sink is the decimal representation of the exact number of body bytes
`Finalize` wrote to the sink, for every buffered body length including 0. -/
theorem C6_content_length_exact (w : JsonWriter) :
    (Finalize w).sink.header "Content-Length" =
      [Nat.repr ((Finalize w).sink.written.length - w.sink.written.length)] := by
  have h1 : (Finalize w).sink.written = w.sink.written ++ emittedBody w.body :=
    Finalize_written w
  rw [h1]
  simp [Finalize, headerSet]

/-- C8: behaviour of `NewJsonReader` at a failing input stream: the read
error is surfaced unchanged and no partial result stream is returned, but
the input stream is not closed — the `defer body.Close()` is only
registered after the error return, contradicting the claim that the
stream is closed in every case. -/
theorem C8_read_error_not_closed :
    NewJsonReader (Except.error "read failed") =
      (Except.error "read failed", false) := rfl

/-- C9: `Flush` is a no-op: it leaves the body buffer, the recorded
status code, the announced trailers, and the underlying sink's headers,
status and written bytes all unchanged. -/
theorem C9_flush_noop (w : JsonWriter) :
    Flush w = w ∧
    (Flush w).body = w.body ∧
    (Flush w).statusCode = w.statusCode ∧
    (Flush w).announcedTrailers = w.announcedTrailers ∧
    (Flush w).sink.header = w.sink.header ∧
    (Flush w).sink.status = w.sink.status ∧
    (Flush w).sink.written = w.sink.written :=
  ⟨rfl, rfl, rfl, rfl, rfl, rfl, rfl⟩

/-- C10: `Write` returns `(len(buf), nil)` and its only effects are
running header preparation and appending `buf` to the internal body
buffer; it writes no bytes and no status to the underlying sink. -/
theorem C10_write_returns_len_nil (w : JsonWriter) (buf : List Nat) :
    (Write w buf).2.1 = buf.length ∧
    (Write w buf).2.2 = none ∧
    (Write w buf).1 =
      { prepareHeadersIfNecessary w with
        body := (prepareHeadersIfNecessary w).body ++ buf } ∧
    (Write w buf).1.body = w.body ++ buf ∧
    (Write w buf).1.statusCode = w.statusCode ∧
    (Write w buf).1.sink.written = w.sink.written ∧
    (Write w buf).1.sink.status = w.sink.status := by
  refine ⟨rfl, rfl, rfl, ?_, ?_, ?_, ?_⟩ <;> simp [Write]

/-! Concrete states used by the witnesses and counterexamples. -/

/-- A sink whose header holds `Grpc-Status: 5` and nothing else. -/
def sinkG5 : Sink :=
  { header := fun k => if k = "Grpc-Status" then ["5"] else [],
    status := none, written := [] }

/-- A sink with an empty header map. -/
def sinkEmpty : Sink :=
  { header := fun _ => [], status := none, written := [] }

/-- A sink announcing one trailer via the `Trailer` header. -/
def sinkTr : Sink :=
  { header := fun k => if k = "Trailer" then ["Grpc-Status"] else [],
    status := none, written := [] }

/-- A fresh transcoder over `sinkTr`, headers not yet prepared. -/
def wPrep : JsonWriter := newJsonWriter sinkTr

/-- A transcoder whose headers were already prepared. -/
def wPrepped : JsonWriter :=
  { sink := sinkEmpty, statusCode := 0, body := [],
    announcedTrailers := some ["Grpc-Status"] }

/-- C3: when `WriteHeader` was never called and the `Grpc-Status` header
holds a valid protocol status code, the HTTP status emitted by `Finalize`
is the `fromGrpcToStatus` image of that code; the mapping sends OK (0) to
200, InvalidArgument (3) to 400, NotFound (5) to 404, PermissionDenied (7)
to 403, Unauthenticated (16) to 401, ResourceExhausted (8) to 429,
Unimplemented (12) to 501, Aborted (10) to 444, DeadlineExceeded (4) to
504, Unavailable (14) to 503, FailedPrecondition (9) to 428, Unknown (2)
to 500, and any other code to 500; in particular code 5 maps to 404 and
code 16 maps to 401. -/
theorem C3_grpc_status_mapping (s : Sink) (ops : List Op) (str : String)
    (c : Nat) (hops : noWriteHeader ops)
    (hdrv : headerGet (run (newJsonWriter s) ops).sink.header "Grpc-Status" = str)
    (hparse : parseUint32 str = some c) (hlt : c < 17) :
    (Finalize (run (newJsonWriter s) ops)).sink.status =
      some (fromGrpcToStatus c) ∧
    fromGrpcToStatus 0 = 200 ∧ fromGrpcToStatus 3 = 400 ∧
    fromGrpcToStatus 5 = 404 ∧ fromGrpcToStatus 7 = 403 ∧
    fromGrpcToStatus 16 = 401 ∧ fromGrpcToStatus 8 = 429 ∧
    fromGrpcToStatus 12 = 501 ∧ fromGrpcToStatus 10 = 444 ∧
    fromGrpcToStatus 4 = 504 ∧ fromGrpcToStatus 14 = 503 ∧
    fromGrpcToStatus 9 = 428 ∧ fromGrpcToStatus 2 = 500 ∧
    (∀ c', c' ≠ 0 → c' ≠ 3 → c' ≠ 5 → c' ≠ 7 → c' ≠ 16 → c' ≠ 8 →
      c' ≠ 12 → c' ≠ 10 → c' ≠ 4 → c' ≠ 14 → c' ≠ 9 → c' ≠ 2 →
      fromGrpcToStatus c' = 500) := by
  have h0 : (run (newJsonWriter s) ops).statusCode = 0 :=
    run_statusCode ops (newJsonWriter s) hops
  have hnn : str ≠ "null" := by
    intro he
    have hnone : parseUint32 "null" = none := rfl
    rw [he, hnone] at hparse
    exact Option.noConfusion hparse
  have humc : unmarshalCode str = (c, true) := by
    unfold unmarshalCode
    rw [if_neg hnn, hparse]
    simp [hlt]
  have hmain := Finalize_status_of_zero (run (newJsonWriter s) ops) h0
  refine ⟨?_, rfl, rfl, rfl, rfl, rfl, rfl, rfl, rfl, rfl, rfl, rfl, rfl, ?_⟩
  · rw [hmain, hdrv, humc]
  · intro c' e0 e3 e5 e7 e16 e8 e12 e10 e4 e14 e9 e2
    simp [fromGrpcToStatus, e0, e3, e5, e7, e16, e8, e12, e10, e4, e14, e9, e2]

/-- C3, witness: a sink whose only header is `Grpc-Status: 5`, no calls
before `Finalize`; the emitted status is the image of code 5. -/
theorem C3_grpc_status_mapping_witness :
    noWriteHeader [] ∧
    headerGet (run (newJsonWriter sinkG5) []).sink.header "Grpc-Status" = "5" ∧
    parseUint32 "5" = some 5 ∧ 5 < 17 ∧
    (Finalize (run (newJsonWriter sinkG5) [])).sink.status =
      some (fromGrpcToStatus 5) :=
  ⟨by simp [noWriteHeader], rfl, rfl, by decide,
   (C3_grpc_status_mapping sinkG5 [] "5" 5 (by simp [noWriteHeader]) rfl rfl
      (by decide)).1⟩

/-- C4: when the `Grpc-Status` header is absent (`Get` yields the empty
string) or its value does not unmarshal as a code, and `WriteHeader` was
never called, `Finalize` emits HTTP status 200: the failure is silently
ignored and the zero-value code OK is used. -/
theorem C4_missing_status_yields_200 (s : Sink) (ops : List Op) (str : String)
    (hops : noWriteHeader ops)
    (hdrv : headerGet (run (newJsonWriter s) ops).sink.header "Grpc-Status" = str)
    (hbad : str = "" ∨ (unmarshalCode str).2 = false) :
    (Finalize (run (newJsonWriter s) ops)).sink.status = some 200 := by
  have h0 : (run (newJsonWriter s) ops).statusCode = 0 :=
    run_statusCode ops (newJsonWriter s) hops
  have hmain := Finalize_status_of_zero (run (newJsonWriter s) ops) h0
  rw [hmain, hdrv]
  have hz : (unmarshalCode str).1 = 0 := by
    rcases hbad with he | hf
    · rw [he]
      rfl
    · exact unmarshalCode_fail_zero str hf
  rw [hz]
  rfl

/-- C4, witness: a sink with no headers at all, no calls before
`Finalize`; the emitted status is 200. -/
theorem C4_missing_status_yields_200_witness :
    noWriteHeader [] ∧
    headerGet (run (newJsonWriter sinkEmpty) []).sink.header "Grpc-Status" = "" ∧
    (("" : String) = "" ∨ (unmarshalCode "").2 = false) ∧
    (Finalize (run (newJsonWriter sinkEmpty) [])).sink.status = some 200 :=
  ⟨by simp [noWriteHeader], rfl, Or.inl rfl,
   C4_missing_status_yields_200 sinkEmpty [] "" (by simp [noWriteHeader]) rfl
     (Or.inl rfl)⟩

/-- C5, counterexample to the unrestricted claim: `WriteHeader 0` records
the Go zero value, which `Finalize` cannot distinguish from "never
called"; with `Grpc-Status: 5` on the sink it emits 404, not the status
code 0 that was passed to `WriteHeader`. -/
theorem C5_counterexample :
    (Finalize (WriteHeader (newJsonWriter sinkG5) 0)).sink.status = some 404 ∧
    (Finalize (WriteHeader (newJsonWriter sinkG5) 0)).sink.status ≠ some 0 := by
  have h : (Finalize (WriteHeader (newJsonWriter sinkG5) 0)).sink.status =
      some 404 := rfl
  exact ⟨h, by rw [h]; decide⟩

/-- C5, amended: for every nonzero status code passed to `WriteHeader`,
if that was the last `WriteHeader` call, the HTTP status emitted by
`Finalize` is that code verbatim, regardless of any `Grpc-Status` header
value on the sink (the code uses `statusCode != 0` as the sentinel for
"`WriteHeader` was never called", so the zero code is the exception). -/
theorem C5_set_status_verbatim (w : JsonWriter) (c : Int) (ops : List Op)
    (hc : c ≠ 0) (hops : noWriteHeader ops) :
    (Finalize (run (WriteHeader w c) ops)).sink.status = some c := by
  have h1 : (run (WriteHeader w c) ops).statusCode = c := by
    rw [run_statusCode ops _ hops]
    rfl
  have h2 : (run (WriteHeader w c) ops).statusCode ≠ 0 := by
    rw [h1]
    exact hc
  rw [Finalize_status_of_ne _ h2, h1]

/-- C5, witness: status 201 recorded by `WriteHeader` wins over the
`Grpc-Status: 5` header on the sink. -/
theorem C5_set_status_verbatim_witness :
    (201 : Int) ≠ 0 ∧ noWriteHeader [] ∧
    (Finalize (run (WriteHeader (newJsonWriter sinkG5) 201) [])).sink.status =
      some 201 :=
  ⟨by decide, by simp [noWriteHeader],
   C5_set_status_verbatim (newJsonWriter sinkG5) 201 [] (by decide)
     (by simp [noWriteHeader])⟩

/-- C7: header preparation is idempotent and runs once.  For a transcoder
whose headers are not yet prepared (`announcedTrailers` is `nil`), after
the first `Write`, `WriteHeader` or `Finalize` call the `Trailer` header
is absent from the underlying sink, `announcedTrailers` equals the value
the `Trailer` header held immediately beforehand, and `Content-Type` is
`application/json`; for a transcoder whose headers are already prepared,
any further `Write`, `WriteHeader` or `Finalize` call leaves
`announcedTrailers` unchanged. -/
theorem C7_prepare_once (w w2 : JsonWriter) (buf buf2 : List Nat)
    (c c2 : Int) (t : List String)
    (h : w.announcedTrailers = none)
    (h2 : w2.announcedTrailers = some t) :
    ((Write w buf).1.sink.header "Trailer" = [] ∧
     (Write w buf).1.announcedTrailers = some (w.sink.header "Trailer") ∧
     (Write w buf).1.sink.header "Content-Type" = ["application/json"]) ∧
    ((WriteHeader w c).sink.header "Trailer" = [] ∧
     (WriteHeader w c).announcedTrailers = some (w.sink.header "Trailer") ∧
     (WriteHeader w c).sink.header "Content-Type" = ["application/json"]) ∧
    ((Finalize w).sink.header "Trailer" = [] ∧
     (Finalize w).announcedTrailers = some (w.sink.header "Trailer") ∧
     (Finalize w).sink.header "Content-Type" = ["application/json"]) ∧
    ((Write w2 buf2).1.announcedTrailers = some t ∧
     (WriteHeader w2 c2).announcedTrailers = some t ∧
     (Finalize w2).announcedTrailers = some t) := by
  refine ⟨⟨?_, ?_, ?_⟩, ⟨?_, ?_, ?_⟩, ⟨?_, ?_, ?_⟩, ?_, ?_, ?_⟩ <;>
    simp [Write, WriteHeader, Finalize, prepareHeadersIfNecessary, h, h2,
      headerSet, headerDel]

/-- C7, witness: the property evaluated on a fresh transcoder over a sink
announcing the trailer `Grpc-Status`, and on an already-prepared
transcoder. -/
theorem C7_prepare_once_witness :
    wPrep.announcedTrailers = none ∧
    wPrepped.announcedTrailers = some ["Grpc-Status"] ∧
    (((Write wPrep [1]).1.sink.header "Trailer" = [] ∧
      (Write wPrep [1]).1.announcedTrailers =
        some (wPrep.sink.header "Trailer") ∧
      (Write wPrep [1]).1.sink.header "Content-Type" =
        ["application/json"]) ∧
     ((WriteHeader wPrep 204).sink.header "Trailer" = [] ∧
      (WriteHeader wPrep 204).announcedTrailers =
        some (wPrep.sink.header "Trailer") ∧
      (WriteHeader wPrep 204).sink.header "Content-Type" =
        ["application/json"]) ∧
     ((Finalize wPrep).sink.header "Trailer" = [] ∧
      (Finalize wPrep).announcedTrailers =
        some (wPrep.sink.header "Trailer") ∧
      (Finalize wPrep).sink.header "Content-Type" =
        ["application/json"]) ∧
     ((Write wPrepped [2]).1.announcedTrailers = some ["Grpc-Status"] ∧
      (WriteHeader wPrepped 205).announcedTrailers = some ["Grpc-Status"] ∧
      (Finalize wPrepped).announcedTrailers = some ["Grpc-Status"])) :=
  ⟨rfl, rfl,
   C7_prepare_once wPrep wPrepped [1] [2] 204 205 ["Grpc-Status"] rfl rfl⟩

end GoGrpcHttp1
